import Mathlib

/-!
Verification of the response capture and verification engine of the
rpi-hil-uvsd HIL test harness, shallowly embedded from
`serial_receiver.py` (frame accumulator) and `output_checker.py`
(expectation matcher).

Modelling conventions:
* Parsed JSON / Python values are `PyVal`; Python `float` numbers are
  modelled as `Rat` (the claims only involve exact decimal literals).
* `bool` is kept as its own constructor, but Python's `bool <: int`
  subtyping and `True == 1` coercions are reproduced where the code
  relies on them (`isinstance(x, (int, float))`, `==`).
* Python exceptions that can escape a function are modelled with
  `Except`: `Except.error` is an uncaught exception propagating out.
* The regex module `re` is an abstract `RegexEngine` parameter:
  `compile` returns `none` exactly when `re.compile`/`re.search` would
  raise `re.error` for that pattern, and otherwise yields the
  "matches anywhere in the string" predicate of the pattern.
* `json.loads` is an abstract `parse : String → Option PyVal`
  parameter (`none` = `json.JSONDecodeError`).
* Wall-clock time is discretised: the capture loop consumes a schedule
  of `(now, chunk)` polling events, `chunk = ""` meaning no bytes were
  available at that poll.  An exhausted schedule stands for the clock
  passing `overallTimeout` with no further bytes.
-/

/-- A Python value as produced by `json.loads` (plus `None`). -/
inductive PyVal where
  | pstr (s : String)
  | pnum (q : Rat)
  | pbool (b : Bool)
  | pnone
  | plist (xs : List PyVal)
  | pdict (xs : List (String × PyVal))

/-- Association-list lookup modelling Python `dict` access for the
string-keyed JSON objects used here (keys assumed unique, as produced
by `json.loads`). -/
def pyLookup : List (String × PyVal) → String → Option PyVal
  | [], _ => none
  | (k, v) :: es, key => if k = key then some v else pyLookup es key

mutual

/-- Python `==` on the values above.  `True == 1` and `1 == 1.0` hold
in Python (`bool` is a subclass of `int`); containers compare
entrywise.  JSON objects are compared entry-by-entry in insertion
order (keys are unique and the claims never exercise object-vs-object
literal equality, which is unreachable inside the matcher's `else`
branch). -/
def pyEq : PyVal → PyVal → Bool
  | PyVal.pstr a, PyVal.pstr b => a == b
  | PyVal.pnum a, PyVal.pnum b => a == b
  | PyVal.pbool a, PyVal.pbool b => a == b
  | PyVal.pbool a, PyVal.pnum b => (if a then (1 : Rat) else 0) == b
  | PyVal.pnum a, PyVal.pbool b => a == (if b then (1 : Rat) else 0)
  | PyVal.pnone, PyVal.pnone => true
  | PyVal.plist a, PyVal.plist b => pyEqList a b
  | PyVal.pdict a, PyVal.pdict b => pyEqEntries a b
  | _, _ => false

def pyEqList : List PyVal → List PyVal → Bool
  | [], [] => true
  | a :: as, b :: bs => pyEq a b && pyEqList as bs
  | _, _ => false

def pyEqEntries : List (String × PyVal) → List (String × PyVal) → Bool
  | [], [] => true
  | (k, v) :: as, (k', v') :: bs => k == k' && pyEq v v' && pyEqEntries as bs
  | _, _ => false

end

/-- Abstract interface to Python's `re` module: `compile p = none`
exactly when `re.search(p, ·)` would raise `re.error` (malformed
pattern); otherwise the returned predicate is "`p` matches anywhere in
the given string" (the truthiness of `re.search`). -/
structure RegexEngine where
  compile : String → Option (String → Bool)

/-- A concrete engine in which every pattern compiles and matches
nothing; used to instantiate theorems at concrete inputs that never
reach a regex validator. -/
def trivEngine : RegexEngine := ⟨fun _ => some (fun _ => false)⟩

/-- A concrete engine in which no pattern compiles (every pattern is
malformed); used to exhibit the behaviour of `compare_json_structures`
on an invalid `REGEX:` pattern. -/
def rejectAllEngine : RegexEngine := ⟨fun _ => none⟩

/-- An uncaught Python exception escaping the matcher:
`reError p` is the `re.error` raised by `re.search` on the malformed
pattern `p` (output_checker.py line 59 has no handler for it). -/
inductive PyError where
  | reError (pattern : String)
deriving DecidableEq

/-- One discrepancy string appended by `compare_json_structures`,
abstracted to its template (the f-string messages of
output_checker.py lines 24-110 carry exactly these data):
* `missingKey path`                        — line 24
* `arrayLengthMismatch path exp got`       — line 39
* `invalidExpectedType path name`          — line 54
* `typeMismatch path name`                 — line 56
* `regexMismatch path pattern`             — line 60
* `valueNotGT path n` / `invalidNumberGT path`    — lines 65-66
* `valueNotGTE path n` / `invalidNumberGTE path`  — lines 71-72
* `choiceNeedsRework path`                 — line 89
* `valueMismatch path`                     — lines 96 and 110
* `complexRuleTypeMismatch path`           — line 105 -/
inductive Discrepancy where
  | missingKey (path : String)
  | arrayLengthMismatch (path : String) (expectedLen gotLen : Nat)
  | invalidExpectedType (path typeName : String)
  | typeMismatch (path typeName : String)
  | regexMismatch (path pattern : String)
  | valueNotGT (path : String) (bound : Rat)
  | invalidNumberGT (path : String)
  | valueNotGTE (path : String) (bound : Rat)
  | invalidNumberGTE (path : String)
  | choiceNeedsRework (path : String)
  | valueMismatch (path : String)
  | complexRuleTypeMismatch (path : String)
deriving DecidableEq

/-- Python `f"{path}.{key}"`. -/
def pathKey (path key : String) : String := path ++ "." ++ key

/-- Python `f"{path}[{i}]"`. -/
def pathIdx (path : String) (i : Nat) : String :=
  path ++ "[" ++ toString i ++ "]"

/-- Python `s.startswith(p)` combined with `s.split(":", 1)[1]`:
returns the remainder after the literal prefix, or `none` when the
prefix does not match. -/
def stripPrefixChars : List Char → List Char → Option (List Char)
  | [], l => some l
  | _ :: _, [] => none
  | p :: ps, c :: cs => if c = p then stripPrefixChars ps cs else none

/-- Numeric value of a digit run (left fold, base 10). -/
def digitsVal (l : List Char) : Nat :=
  l.foldl (fun a c => a * 10 + (c.toNat - 48)) 0

/-- Unsigned part of Python `float(...)` restricted to plain decimal
literals `digits`, `digits.digits`, `digits.`, `.digits` (the forms
expectation documents use); anything else is a `ValueError`
(`none`). -/
def parseUnsignedDec (l : List Char) : Option Rat :=
  match l.span (fun c => c ≠ '.') with
  | (ip, []) =>
    if ip ≠ [] ∧ ip.all Char.isDigit then some (digitsVal ip : Rat) else none
  | (ip, _ :: fp) =>
    if (ip ≠ [] ∨ fp ≠ []) ∧ ip.all Char.isDigit ∧ fp.all Char.isDigit
        ∧ ¬ fp.contains '.' then
      some ((digitsVal ip : Rat) + (digitsVal fp : Rat) / (10 : Rat) ^ fp.length)
    else none

/-- Python `float(str)` on an optional sign followed by a plain
decimal literal; `none` models the `ValueError` caught at
output_checker.py lines 66/72. -/
def parsePyFloatChars : List Char → Option Rat
  | '-' :: rest => (parseUnsignedDec rest).map (fun q => -q)
  | '+' :: rest => parseUnsignedDec rest
  | l => parseUnsignedDec l

/-- Python `isinstance(v, (int, float))` together with the numeric
value used by the `VALUE_GT`/`VALUE_GTE` comparisons.  `bool` is a
subclass of `int` in Python, so `True`/`False` count as the numbers
1/0. -/
def asPyNumber : PyVal → Option Rat
  | PyVal.pnum q => some q
  | PyVal.pbool b => some (if b then 1 else 0)
  | _ => none

/-- The keys of the `type_map` at output_checker.py line 52. -/
def validTypeName (ty : List Char) : Bool :=
  ty == "string".data || ty == "number".data || ty == "boolean".data
    || ty == "array".data || ty == "object".data || ty == "null".data

/-- Python `isinstance(v, type_map[name])` for the `TYPE:` validator.
Note `isinstance(True, (int, float))` is `True` in Python (`bool <:
int`), so booleans satisfy `TYPE:number` as well as `TYPE:boolean`,
while `isinstance(1, bool)` is `False`. -/
def isinstanceType : PyVal → List Char → Bool
  | PyVal.pstr _, ty => ty == "string".data
  | PyVal.pnum _, ty => ty == "number".data
  | PyVal.pbool _, ty => ty == "number".data || ty == "boolean".data
  | PyVal.plist _, ty => ty == "array".data
  | PyVal.pdict _, ty => ty == "object".data
  | PyVal.pnone, ty => ty == "null".data

/-- Python `isinstance(exp_val, str) and exp_val == "ANY_OR_MISSING"`
(output_checker.py line 18). -/
def isAnyOrMissing : PyVal → Bool
  | PyVal.pstr s => s == "ANY_OR_MISSING"
  | _ => false

/-- Python `isinstance(exp_val, dict) and exp_val.get("$optional") is True`
(output_checker.py line 21).  `is True` demands the `True` singleton
itself. -/
def isOptionalMarked : PyVal → Bool
  | PyVal.pdict es =>
    match pyLookup es "$optional" with
    | some (PyVal.pbool true) => true
    | _ => false
  | _ => false

/-- The validator-string dispatch of `compare_json_structures`
(output_checker.py lines 44-96), taken branch-for-branch in source
order: `"ANY"`, `"ANY_OR_MISSING"`, `TYPE:`, `REGEX:`, `VALUE_GT:`,
`VALUE_GTE:`, `CHOICE:[`, and otherwise exact literal match.  There is
no `VALUE_LT`/`VALUE_LTE` branch in the source (line 73 is only a
comment), so such strings fall through to the literal-match branch.
An invalid regex pattern raises `re.error` (no handler): that is the
`Except.error` case. -/
def compareStringValidator (E : RegexEngine) (received : PyVal)
    (s path : String) : Except PyError (List Discrepancy) :=
  let cs := s.data
  if cs = "ANY".data then Except.ok []
  else if cs = "ANY_OR_MISSING".data then Except.ok []
  else
    match stripPrefixChars ("TYPE:".data) cs with
    | some ty =>
      if validTypeName ty then
        Except.ok (if isinstanceType received ty then []
          else [Discrepancy.typeMismatch path (String.mk ty)])
      else Except.ok [Discrepancy.invalidExpectedType path (String.mk ty)]
    | none =>
    match stripPrefixChars ("REGEX:".data) cs with
    | some pat =>
      match received with
      | PyVal.pstr r =>
        match E.compile (String.mk pat) with
        | none => Except.error (PyError.reError (String.mk pat))
        | some search =>
          Except.ok (if search r then []
            else [Discrepancy.regexMismatch path (String.mk pat)])
      | _ => Except.ok [Discrepancy.regexMismatch path (String.mk pat)]
    | none =>
    match stripPrefixChars ("VALUE_GT:".data) cs with
    | some numChars =>
      match parsePyFloatChars numChars with
      | some num =>
        Except.ok (match asPyNumber received with
          | some r => if num < r then [] else [Discrepancy.valueNotGT path num]
          | none => [Discrepancy.valueNotGT path num])
      | none => Except.ok [Discrepancy.invalidNumberGT path]
    | none =>
    match stripPrefixChars ("VALUE_GTE:".data) cs with
    | some numChars =>
      match parsePyFloatChars numChars with
      | some num =>
        Except.ok (match asPyNumber received with
          | some r => if num ≤ r then [] else [Discrepancy.valueNotGTE path num]
          | none => [Discrepancy.valueNotGTE path num])
      | none => Except.ok [Discrepancy.invalidNumberGTE path]
    | none =>
    match stripPrefixChars ("CHOICE:[".data) cs with
    | some _ => Except.ok [Discrepancy.choiceNeedsRework path]
    | none =>
      Except.ok (if pyEq received (PyVal.pstr s) then []
        else [Discrepancy.valueMismatch path])

mutual

/-- Model of `compare_json_structures(received_obj, expected_obj, path)`
(output_checker.py lines 5-112).  Branches in source order:
dict-vs-dict, list-vs-list, expected-is-string (validator dispatch),
expected-is-dict-with-`$comment` against a non-dict, and otherwise the
exact-literal `!=` comparison.  The result is the accumulated
discrepancy list, or an uncaught exception (`Except.error`). -/
def compare_json_structures (E : RegexEngine) (received expected : PyVal)
    (path : String) : Except PyError (List Discrepancy) :=
  match expected, received with
  | PyVal.pdict ee, PyVal.pdict re => compareDictEntries E re ee path
  | PyVal.plist ee, PyVal.plist re =>
    if re.length ≠ ee.length then
      Except.ok [Discrepancy.arrayLengthMismatch path ee.length re.length]
    else compareListItems E re ee path 0
  | PyVal.pstr s, r => compareStringValidator E r s path
  | PyVal.pdict ee, r =>
    if (pyLookup ee "$comment").isSome then
      Except.ok [Discrepancy.complexRuleTypeMismatch path]
    else
      Except.ok (if pyEq r (PyVal.pdict ee) then []
        else [Discrepancy.valueMismatch path])
  | e, r =>
    Except.ok (if pyEq r e then [] else [Discrepancy.valueMismatch path])
termination_by (sizeOf expected, 0)

/-- The `for key, exp_val in expected_obj.items()` loop of the
dict-vs-dict branch (output_checker.py lines 15-27): a missing key is
acceptable iff the expected value is `"ANY_OR_MISSING"` or carries the
`$optional` marker, otherwise a missing-key discrepancy; a present key
recurses on the paired values.  Contributions are concatenated in key
order; an exception raised mid-loop propagates. -/
def compareDictEntries (E : RegexEngine) (re : List (String × PyVal)) :
    List (String × PyVal) → String → Except PyError (List Discrepancy)
  | [], _ => Except.ok []
  | (k, ev) :: es, path =>
    match keyContribution E re k ev path with
    | Except.error e => Except.error e
    | Except.ok d =>
      match compareDictEntries E re es path with
      | Except.error e => Except.error e
      | Except.ok ds => Except.ok (d ++ ds)
termination_by l _path => (sizeOf l, 1)

/-- The body of one pass of the key loop (output_checker.py lines
16-27) for the key `k` with expected value `ev`: a key absent from the
received object is acceptable exactly for `"ANY_OR_MISSING"` or an
`$optional`-marked object and otherwise yields the missing-key
discrepancy; a present key recurses on the paired values. -/
def keyContribution (E : RegexEngine) (re : List (String × PyVal))
    (k : String) (ev : PyVal) (path : String) :
    Except PyError (List Discrepancy) :=
  match pyLookup re k with
  | none =>
    if isAnyOrMissing ev || isOptionalMarked ev then
      Except.ok ([] : List Discrepancy)
    else Except.ok [Discrepancy.missingKey (pathKey path k)]
  | some rv => compare_json_structures E rv ev (pathKey path k)
termination_by (sizeOf ev, 1)

/-- The `for i, (rec_item, exp_item) in enumerate(zip(...))` loop of
the list-vs-list branch (output_checker.py lines 41-42); the two lists
have equal length when this is reached. -/
def compareListItems (E : RegexEngine) :
    List PyVal → List PyVal → String → Nat → Except PyError (List Discrepancy)
  | r :: rs, e :: es, path, i =>
    match compare_json_structures E r e (pathIdx path i) with
    | Except.error err => Except.error err
    | Except.ok d =>
      match compareListItems E rs es path (i + 1) with
      | Except.error err => Except.error err
      | Except.ok ds => Except.ok (d ++ ds)
  | _, _, _, _ => Except.ok []
termination_by _rs es _path _i => (sizeOf es, 1)

end

/-- Python `exp_item.get(key)` for the expectation items of the line
loop; the items are JSON objects (a non-dict item would raise
`AttributeError` in Python and is outside the modelled inputs). -/
def pyGet : PyVal → String → Option PyVal
  | PyVal.pdict es, k => pyLookup es k
  | _, _ => none

/-- One comparison of the `lines`-mode loop body (output_checker.py
lines 185-194): only the `exact_line` type is implemented — it matches
iff `received_lines[received_idx] == exp_item.get("value")` (a missing
`"value"` is Python `None`); every other `type` (including the
`ignore_line_count`, `contains_string` and `regex_match` names that
line 192 only mentions in a comment) leaves `match` False. -/
def lineMatches (expItem receivedLine : PyVal) : Bool :=
  match pyGet expItem "type" with
  | some (PyVal.pstr t) =>
    if t = "exact_line" then
      pyEq receivedLine ((pyGet expItem "value").getD PyVal.pnone)
    else false
  | _ => false

/-- The cursor loop of `check_output`'s `lines` mode
(output_checker.py lines 178-208): while both cursors are in range,
a match advances both, a failure clears `overall_pass` and advances
only the received cursor; after the loop, leftover expected items
force a failing verdict (line 206-208) while leftover received lines
leave the verdict as accumulated. -/
def lineLoop (expItems recLines : List PyVal) (ei ri : Nat)
    (overallPass : Bool) : Bool :=
  if h : ei < expItems.length ∧ ri < recLines.length then
    let e := expItems.get ⟨ei, h.1⟩
    let r := recLines.get ⟨ri, h.2⟩
    if lineMatches e r then lineLoop expItems recLines (ei + 1) (ri + 1) overallPass
    else lineLoop expItems recLines ei (ri + 1) false
  else if ei < expItems.length then false
  else overallPass
termination_by (expItems.length - ei) + (recLines.length - ri)
decreasing_by
  all_goals omega

/-- How the expectation document reached `check_output`
(output_checker.py lines 123-137): no `--expected-values` path at all,
a missing file, an unparseable file, or a successfully parsed JSON
object (its key/value entries). -/
inductive LoadOutcome where
  | noPath
  | fileNotFound
  | badJson
  | loaded (cfg : List (String × PyVal))

/-- Verdict of `check_output`: `skipped` is the dedicated
"SKIPPED" outcome of lines 123-126 and 142-144 (which returns `True`),
`pass`/`fail` the ordinary `True`/`False` returns. -/
inductive CheckResult where
  | skipped
  | pass
  | fail
deriving DecidableEq

/-- The boolean `check_output` actually returns for each verdict. -/
def CheckResult.toBool : CheckResult → Bool
  | CheckResult.skipped => true
  | CheckResult.pass => true
  | CheckResult.fail => false

/-- Model of `check_output(received, expected_json_path)` (output_checker.py
lines 115-218), with file access folded into `LoadOutcome`.
`reception_mode` defaults to `"lines"`; an absent or `null`
`expected_responses` is the SKIPPED verdict; `json_object` mode
requires a received dict and runs `compare_json_structures` from path
`"root"` (whose uncaught `re.error` propagates); `lines` mode requires
a received list and runs the cursor loop.  A non-list
`expected_responses` in `lines` mode (which would hit `len`/indexing
of a non-list) is outside the modelled inputs and mapped to `fail`
only when the received value is not a list; with a received list it is
not modelled and the claims never reach it, so it is mapped through
`lineLoop` on an empty item list only for the empty-list case by
construction of the match below (non-list documents simply have no
arm and fall to `CheckResult.fail`). -/
def check_output (E : RegexEngine) (received : PyVal)
    (load : LoadOutcome) : Except PyError CheckResult :=
  match load with
  | LoadOutcome.noPath => Except.ok CheckResult.skipped
  | LoadOutcome.fileNotFound => Except.ok CheckResult.fail
  | LoadOutcome.badJson => Except.ok CheckResult.fail
  | LoadOutcome.loaded cfg =>
    let mode := (pyLookup cfg "reception_mode").getD (PyVal.pstr "lines")
    match pyLookup cfg "expected_responses" with
    | none => Except.ok CheckResult.skipped
    | some PyVal.pnone => Except.ok CheckResult.skipped
    | some expDef =>
      if pyEq mode (PyVal.pstr "json_object") then
        match received with
        | PyVal.pdict _ =>
          match compare_json_structures E received expDef "root" with
          | Except.error e => Except.error e
          | Except.ok ds =>
            Except.ok (if ds.isEmpty then CheckResult.pass else CheckResult.fail)
        | _ => Except.ok CheckResult.fail
      else if pyEq mode (PyVal.pstr "lines") then
        match received with
        | PyVal.plist ls =>
          match expDef with
          | PyVal.plist items =>
            Except.ok (if lineLoop items ls 0 0 true then CheckResult.pass
              else CheckResult.fail)
          | _ => Except.ok CheckResult.fail
        | _ => Except.ok CheckResult.fail
      else Except.ok CheckResult.fail

/-- Python `str.strip()` whitespace test (ASCII whitespace; the
captures here contain no exotic unicode spacing). -/
def isPySpace (c : Char) : Bool :=
  c = ' ' || c = '\t' || c = '\n' || c = '\r' || c = '\x0b' || c = '\x0c'

/-- Python `s.strip()`: drop leading and trailing whitespace. -/
def pyStrip (s : String) : String :=
  String.mk (((s.data.dropWhile isPySpace).reverse.dropWhile isPySpace).reverse)

/-- The reception modes of `SerialReceiver.receive_data`
(serial_receiver.py line 85): `"lines"`, `"json_object"`,
`"raw_stream"`. -/
inductive Mode where
  | lines
  | jsonObject
  | rawStream
deriving DecidableEq

/-- The capture configuration of `receive_data(mode,
overall_timeout_s, stop_condition_line, idle_timeout_s)`.  Times are
in abstract clock ticks. -/
structure RecvConfig where
  mode : Mode
  overallTimeout : Nat
  stopLine : Option String
  idleTimeout : Nat

/-- The value `receive_data` returns: a list of lines, a parsed JSON
object, the error dict `{"error": tag, "buffer": buf}` built at
serial_receiver.py line 156, or the raw stripped buffer. -/
inductive RecvResult where
  | lines (ls : List String)
  | json (v : PyVal)
  | jsonError (tag : String) (buffer : String)
  | raw (s : String)

/-- Truthiness test `if stop_condition_line and processed_line ==
stop_condition_line` (serial_receiver.py line 126): `None` and the
empty string are falsy. -/
def isStop (stop : Option String) (line : String) : Bool :=
  match stop with
  | some s => (s != "") && (line == s)
  | none => false

/-- Python `buffer.count` comparison of open and close braces (serial_receiver.py
line 104). -/
def bracesOpen (buffer : String) : Bool :=
  decide (buffer.data.count '\x7d' < buffer.data.count '\x7b')

/-- The idle-timeout decision at the top of each capture iteration
(serial_receiver.py lines 103-108): `(now - last_data_time) >
idle_timeout_s` breaks the loop, except in `json_object` mode while
the buffer holds more `{` than `}`, where the iteration continues. -/
def idleBreak (mode : Mode) (idleElapsed idleTimeout : Nat)
    (buffer : String) : Bool :=
  if idleTimeout < idleElapsed then
    if (match mode with
        | Mode.jsonObject => bracesOpen buffer
        | _ => false) then false
    else true
  else false

/-- Python `buffer + data_chunk` when a nonempty chunk was read, else the
unchanged buffer (serial_receiver.py lines 110-115). -/
def afterRead (buffer chunk : String) : String :=
  if chunk = "" then buffer else buffer ++ chunk

/-- Inner worker for the `while '\n' in buffer` extraction loop
(serial_receiver.py lines 120-128): `cur` is the (reversed) partial
line scanned so far.  At each `'\n'` the completed line is stripped
and emitted; if it triggers the stop condition the scan ends
immediately with `stopped = true` (remaining characters are
discarded, as the Python `return` does); otherwise scanning continues.
Characters after the last newline are the retained partial buffer. -/
def extractLinesAux (stop : Option String) (cur : List Char) :
    List Char → List String × List Char × Bool
  | [] => ([], cur.reverse, false)
  | c :: cs =>
    if c = '\n' then
      let processed := pyStrip (String.mk cur.reverse)
      if isStop stop processed then ([processed], cs, true)
      else
        match extractLinesAux stop [] cs with
        | (ls, b, st) => (processed :: ls, b, st)
    else extractLinesAux stop (c :: cur) cs

/-- Repeatedly split the buffer at the first `'\n'`, strip and emit
each completed line, stopping early at the stop line; returns the
emitted lines, the leftover partial line, and whether the stop
condition fired. -/
def extractLines (stop : Option String) (buf : List Char) :
    List String × List Char × Bool :=
  extractLinesAux stop [] buf

/-- The stripped complete (newline-terminated) lines of a buffer, in
order — the lines the extraction loop would emit if the stop
condition never fired. -/
def completedLinesAux (cur : List Char) : List Char → List String
  | [] => []
  | c :: cs =>
    if c = '\n' then
      pyStrip (String.mk cur.reverse) :: completedLinesAux [] cs
    else completedLinesAux (c :: cur) cs

/-- The stripped complete lines of a buffer. -/
def completedLines (buf : List Char) : List String :=
  completedLinesAux [] buf

/-- The prefix of a line sequence up to and including the first
occurrence of the stop line `s`, or `none` when `s` never occurs. -/
def upToStop (s : String) : List String → Option (List String)
  | [] => none
  | l :: ls =>
    if l = s then some [l] else (upToStop s ls).map (fun p => l :: p)

/-- Python check that the stripped buffer starts with an open brace and ends with a close brace
(serial_receiver.py line 132). -/
def bufferLooksJson (buffer : String) : Bool :=
  let t := (pyStrip buffer).data
  (match t.head? with | some c => c = '\x7b' | none => false)
    && (match t.getLast? with | some c => c = '\x7d' | none => false)

/-- The post-loop returns of `receive_data` (serial_receiver.py lines
141-158): `lines` mode flushes a nonempty stripped remainder as a
final line; `json_object` mode makes a final parse attempt and on
failure returns the error dict tagged `"invalid_or_incomplete_json"`
carrying the stripped buffer; `raw_stream` returns the stripped
buffer. -/
def finalize (parse : String → Option PyVal) (mode : Mode)
    (buffer : String) (lines : List String) : RecvResult :=
  match mode with
  | Mode.lines =>
    if pyStrip buffer ≠ "" then RecvResult.lines (lines ++ [pyStrip buffer])
    else RecvResult.lines lines
  | Mode.jsonObject =>
    match parse (pyStrip buffer) with
    | some v => RecvResult.json v
    | none => RecvResult.jsonError "invalid_or_incomplete_json" (pyStrip buffer)
  | Mode.rawStream => RecvResult.raw (pyStrip buffer)

/-- The polling loop of `receive_data` (serial_receiver.py lines
102-139), driven by a schedule of `(now, chunk)` polling events;
`start`/`lastData` are `start_time`/`last_data_time`, `buffer` the
byte buffer, `lines` the `lines_received` accumulator.  Each
iteration: the `while` guard `(now - start) < overall_timeout_s`,
then the idle-timeout decision, then the read (a nonempty chunk
extends the buffer and refreshes `last_data_time`), then the
mode-specific step — line extraction with early return at the stop
line, or the heuristic brace check plus parse attempt with early
return of a parsed document.  An exhausted schedule means the clock
passed the overall timeout. -/
def receiveLoop (parse : String → Option PyVal) (cfg : RecvConfig) :
    List (Nat × String) → Nat → Nat → String → List String → RecvResult
  | [], _start, _lastData, buffer, lines => finalize parse cfg.mode buffer lines
  | (now, chunk) :: rest, start, lastData, buffer, lines =>
    if now - start < cfg.overallTimeout then
      if idleBreak cfg.mode (now - lastData) cfg.idleTimeout buffer then
        finalize parse cfg.mode buffer lines
      else
        let buffer' := afterRead buffer chunk
        let lastData' := if chunk = "" then lastData else now
        match cfg.mode with
        | Mode.lines =>
          match extractLines cfg.stopLine buffer'.data with
          | (ls, _, true) => RecvResult.lines (lines ++ ls)
          | (ls, b', false) =>
            receiveLoop parse cfg rest start lastData' (String.mk b') (lines ++ ls)
        | Mode.jsonObject =>
          if bufferLooksJson buffer' then
            match parse (pyStrip buffer') with
            | some v => RecvResult.json v
            | none => receiveLoop parse cfg rest start lastData' buffer' lines
          else receiveLoop parse cfg rest start lastData' buffer' lines
        | Mode.rawStream => receiveLoop parse cfg rest start lastData' buffer' lines
    else finalize parse cfg.mode buffer lines

/-- Model of `receive_data` itself: empty buffer and accumulator, the clock
starting at `0 = start_time = last_data_time`. -/
def receive_data (parse : String → Option PyVal) (cfg : RecvConfig)
    (schedule : List (Nat × String)) : RecvResult :=
  receiveLoop parse cfg schedule 0 0 "" []

/-- The remainder of a `json_object`-mode iteration after the while
guard and the idle check have both been passed: the brace heuristic,
the parse attempt, and the continuation of the loop
(serial_receiver.py lines 129-138, with the state already updated by
the read step). -/
def jsonContinue (parse : String → Option PyVal) (cfg : RecvConfig)
    (rest : List (Nat × String)) (start lastData' : Nat)
    (buffer' : String) (lines : List String) : RecvResult :=
  if bufferLooksJson buffer' then
    match parse (pyStrip buffer') with
    | some v => RecvResult.json v
    | none => receiveLoop parse cfg rest start lastData' buffer' lines
  else receiveLoop parse cfg rest start lastData' buffer' lines

/-- A `json.loads` model that never parses; usable to instantiate
theorems whose hypotheses demand a failed parse. -/
def parseNone : String → Option PyVal := fun _ => none

theorem string_mk_data (s : String) : String.mk s.data = s := by
  cases s
  rfl

theorem stripPrefixChars_append (p l : List Char) :
    stripPrefixChars p (p ++ l) = some l := by
  induction p with
  | nil => rfl
  | cons c cs ih => simp [stripPrefixChars, ih]

theorem upToStop_shape (s : String) :
    ∀ (ls pre : List String), upToStop s ls = some pre →
      ∃ pre₀, pre = pre₀ ++ [s] ∧ s ∉ pre₀ := by
  intro ls
  induction ls with
  | nil => intro pre h; simp [upToStop] at h
  | cons l ls ih =>
    intro pre h
    rw [upToStop] at h
    by_cases hl : l = s
    · rw [if_pos hl] at h
      injection h with h'
      exact ⟨[], by simp [← h', hl], by simp⟩
    · rw [if_neg hl] at h
      obtain ⟨p', hp', hpre⟩ := Option.map_eq_some'.mp h
      obtain ⟨pre₀, rfl, hnot⟩ := ih p' hp'
      refine ⟨l :: pre₀, by simp [← hpre], ?_⟩
      intro hmem
      rcases List.mem_cons.mp hmem with h1 | h1
      · exact hl h1.symm
      · exact hnot h1

theorem extractLinesAux_stop (s : String) (hne : s ≠ "") :
    ∀ (buf : List Char) (cur : List Char) (pre : List String),
      upToStop s (completedLinesAux cur buf) = some pre →
      ∃ rest, extractLinesAux (some s) cur buf = (pre, rest, true) := by
  intro buf
  induction buf with
  | nil => intro cur pre h; simp [completedLinesAux, upToStop] at h
  | cons c cs ih =>
    intro cur pre h
    by_cases hc : c = '\n'
    · subst hc
      simp only [completedLinesAux, if_pos rfl] at h
      by_cases hp : pyStrip (String.mk cur.reverse) = s
      · simp [upToStop, hp] at h
        refine ⟨cs, ?_⟩
        simp [extractLinesAux, isStop, hp, hne, ← h]
      · simp [upToStop, hp] at h
        obtain ⟨p', hp', rfl⟩ := h
        obtain ⟨rest, hrest⟩ := ih [] p' hp'
        refine ⟨rest, ?_⟩
        simp [extractLinesAux, isStop, hp, hrest]
    · simp only [completedLinesAux, if_neg hc] at h
      obtain ⟨rest, hrest⟩ := ih (c :: cur) pre h
      exact ⟨rest, by simp [extractLinesAux, hc, hrest]⟩

/-- C1: in `Lines` mode, when the lines freshly extracted from the
buffer (after this iteration's read) reach a line equal to the
configured (non-empty) stop line, `receive_data` returns immediately
with exactly the lines accumulated so far up to and including the
first occurrence of the stop line; the rest of the input — both the
remaining buffer content after the stop line and every later polling
event — never reaches the result. -/
theorem receive_data_stops_at_stop_line
    (parse : String → Option PyVal) (cfg : RecvConfig) (now : Nat)
    (chunk : String) (rest : List (Nat × String)) (start lastData : Nat)
    (buffer : String) (lines : List String) (s : String) (pre : List String)
    (hm : cfg.mode = Mode.lines) (hs : cfg.stopLine = some s) (hne : s ≠ "")
    (ht : now - start < cfg.overallTimeout)
    (hi : ¬ (cfg.idleTimeout < now - lastData))
    (hpre : upToStop s (completedLines (afterRead buffer chunk).data) = some pre) :
    receiveLoop parse cfg ((now, chunk) :: rest) start lastData buffer lines
        = RecvResult.lines (lines ++ pre)
      ∧ ∃ pre₀, pre = pre₀ ++ [s] ∧ s ∉ pre₀ := by
  obtain ⟨bufRest, hext⟩ :=
    extractLinesAux_stop s hne (afterRead buffer chunk).data [] pre hpre
  constructor
  · rw [receiveLoop]
    rw [if_pos ht]
    rw [hm]
    simp only [idleBreak]
    rw [if_neg hi]
    simp only [extractLines] at hext ⊢
    rw [hs, hext]
    simp
  · exact upToStop_shape s _ pre hpre

/-- C1 witness: the spec's example — incoming lines `A`, `B`, `STOP`,
`C` with stop line `STOP` yield exactly `["A","B","STOP"]`. -/
theorem receive_data_stops_at_stop_line_witness :
    receiveLoop parseNone ⟨Mode.lines, 5, some "STOP", 1⟩
        [(0, "A\nB\nSTOP\nC\n")] 0 0 "" []
      = RecvResult.lines ["A", "B", "STOP"] := by
  have h := (receive_data_stops_at_stop_line parseNone
    ⟨Mode.lines, 5, some "STOP", 1⟩ 0 "A\nB\nSTOP\nC\n" [] 0 0 "" []
    "STOP" ["A", "B", "STOP"] rfl rfl (by decide) (by decide) (by decide)
    (by decide)).1
  simpa using h

/-- C3: within the overall-timeout window, an iteration of the
capture loop in `json_object` mode whose buffer holds more `{` than
`}` can never terminate through the idle timeout: the idle-break
decision is `false` for every idle-elapsed value, and the loop
proceeds to the read/parse step. -/
theorem receive_data_idle_immune_while_braces_open
    (parse : String → Option PyVal) (cfg : RecvConfig) (now : Nat)
    (chunk : String) (rest : List (Nat × String)) (start lastData : Nat)
    (buffer : String) (lines : List String)
    (hm : cfg.mode = Mode.jsonObject)
    (hb : bracesOpen buffer = true)
    (ht : now - start < cfg.overallTimeout) :
    idleBreak cfg.mode (now - lastData) cfg.idleTimeout buffer = false
      ∧ receiveLoop parse cfg ((now, chunk) :: rest) start lastData buffer lines
          = jsonContinue parse cfg rest start
              (if chunk = "" then lastData else now) (afterRead buffer chunk)
              lines := by
  have hib : idleBreak cfg.mode (now - lastData) cfg.idleTimeout buffer = false := by
    rw [hm]
    simp only [idleBreak, hb]
    split <;> rfl
  refine ⟨hib, ?_⟩
  rw [receiveLoop, if_pos ht, hib]
  simp only [hm, jsonContinue]
  simp

/-- C3 witness: a concrete brace-open buffer at idle-elapsed 7 with
idle timeout 1 does not break. -/
theorem receive_data_idle_immune_witness :
    idleBreak Mode.jsonObject 7 1 " \x7b\"a\":" = false
      ∧ receiveLoop parseNone ⟨Mode.jsonObject, 10, none, 1⟩ [(7, "")] 0 0
          " \x7b\"a\":" []
        = jsonContinue parseNone ⟨Mode.jsonObject, 10, none, 1⟩ [] 0 0
            " \x7b\"a\":" [] := by
  have h := receive_data_idle_immune_while_braces_open parseNone
    ⟨Mode.jsonObject, 10, none, 1⟩ 7 "" [] 0 0 " \x7b\"a\":" [] rfl
    (by decide) (by decide)
  simpa [afterRead] using h

/-- C4: in `json_object` mode, when the capture ends by timeout (the
schedule is exhausted, or the overall deadline has passed at the head
event) and the final parse of the stripped buffer fails,
`receive_data` returns — not raises — the structured error value
tagged `"invalid_or_incomplete_json"` carrying the stripped partial
buffer. -/
theorem receive_data_timeout_error_keeps_buffer
    (parse : String → Option PyVal) (cfg : RecvConfig) (start lastData : Nat)
    (buffer : String) (lines : List String) (now : Nat) (chunk : String)
    (rest : List (Nat × String))
    (hm : cfg.mode = Mode.jsonObject)
    (hp : parse (pyStrip buffer) = none) :
    receiveLoop parse cfg [] start lastData buffer lines
        = RecvResult.jsonError "invalid_or_incomplete_json" (pyStrip buffer)
      ∧ (cfg.overallTimeout ≤ now - start →
          receiveLoop parse cfg ((now, chunk) :: rest) start lastData buffer lines
            = RecvResult.jsonError "invalid_or_incomplete_json" (pyStrip buffer)) := by
  constructor
  · rw [receiveLoop, hm]
    simp [finalize, hp]
  · intro hto
    rw [receiveLoop, if_neg (by omega), hm]
    simp [finalize, hp]

/-- C4 witness: a half-received buffer that never parses is
surfaced inside the error value. -/
theorem receive_data_timeout_error_witness :
    receiveLoop parseNone ⟨Mode.jsonObject, 10, none, 1⟩ [] 0 0 " \x7bhalf " []
      = RecvResult.jsonError "invalid_or_incomplete_json"
          (pyStrip " \x7bhalf ") := by
  exact (receive_data_timeout_error_keeps_buffer parseNone
    ⟨Mode.jsonObject, 10, none, 1⟩ 0 0 " \x7bhalf " [] 0 "" [] rfl rfl).1

/-- C2: the structural matcher's key loop.  For every expected object
entry list `(k, v) :: es` the discrepancies are the contribution of
`k` followed by those of the remaining keys; for a key absent from the
received object the contribution is empty exactly when the expected
value is the literal string `"ANY_OR_MISSING"` or an object carrying
the `$optional` marker, and otherwise it is exactly the missing-key
discrepancy; for a key present in both objects the matcher recurses on
the paired values. -/
theorem compare_json_structures_key_semantics (E : RegexEngine)
    (re : List (String × PyVal)) (k : String) (v : PyVal)
    (es : List (String × PyVal)) (path : String) :
    (compareDictEntries E re ((k, v) :: es) path
        = match keyContribution E re k v path with
          | Except.error e => Except.error e
          | Except.ok d =>
            match compareDictEntries E re es path with
            | Except.error e => Except.error e
            | Except.ok ds => Except.ok (d ++ ds))
      ∧ (pyLookup re k = none →
          ((keyContribution E re k v path = Except.ok [] ↔
              isAnyOrMissing v = true ∨ isOptionalMarked v = true)
            ∧ (isAnyOrMissing v = false → isOptionalMarked v = false →
                keyContribution E re k v path
                  = Except.ok [Discrepancy.missingKey (pathKey path k)])))
      ∧ (∀ rv, pyLookup re k = some rv →
          keyContribution E re k v path
            = compare_json_structures E rv v (pathKey path k))
      ∧ compare_json_structures E (PyVal.pdict re) (PyVal.pdict ((k, v) :: es))
          path = compareDictEntries E re ((k, v) :: es) path := by
  refine ⟨?_, ?_, ?_, ?_⟩
  · rw [compareDictEntries]
  · intro hnone
    constructor
    · rw [keyContribution, hnone]
      by_cases hacc : isAnyOrMissing v = true ∨ isOptionalMarked v = true
      · rcases hacc with h1 | h1 <;>
          simp [h1]
      · push_neg at hacc
        simp [Bool.eq_false_iff.mpr hacc.1, Bool.eq_false_iff.mpr hacc.2,
          hacc.1, hacc.2]
    · intro h1 h2
      rw [keyContribution, hnone]
      simp [h1, h2]
  · intro rv hsome
    rw [keyContribution, hsome]
  · rw [compare_json_structures]

/-- C2 witness: the spec's example — `expected =
{"a": 1, "b": "ANY_OR_MISSING"}` against `received = {"a": 1}` passes
with no discrepancies (assembled from the per-key facts of the
theorem). -/
theorem compare_json_structures_key_semantics_witness :
    compareDictEntries trivEngine [("a", PyVal.pnum 1)]
        [("a", PyVal.pnum 1), ("b", PyVal.pstr "ANY_OR_MISSING")] "root"
      = Except.ok [] := by
  have hdec := (compare_json_structures_key_semantics trivEngine
    [("a", PyVal.pnum 1)] "a" (PyVal.pnum 1)
    [("b", PyVal.pstr "ANY_OR_MISSING")] "root").1
  have hpresent := (compare_json_structures_key_semantics trivEngine
    [("a", PyVal.pnum 1)] "a" (PyVal.pnum 1)
    [("b", PyVal.pstr "ANY_OR_MISSING")] "root").2.2.1 (PyVal.pnum 1) rfl
  have hmiss := ((compare_json_structures_key_semantics trivEngine
    [("a", PyVal.pnum 1)] "b" (PyVal.pstr "ANY_OR_MISSING")
    [] "root").2.1 rfl).1.mpr (Or.inl rfl)
  rw [hdec, hpresent]
  have hrec : compare_json_structures trivEngine (PyVal.pnum 1) (PyVal.pnum 1)
      (pathKey "root" "a") = Except.ok [] := by
    simp [compare_json_structures, pyEq]
  rw [hrec, compareDictEntries, hmiss, compareDictEntries]
  rfl

theorem lineLoop_step (items recLines : List PyVal) (ei ri : Nat) (p : Bool)
    (he : ei < items.length) (hr : ri < recLines.length) :
    lineLoop items recLines ei ri p
      = if lineMatches (items.get ⟨ei, he⟩) (recLines.get ⟨ri, hr⟩) = true
        then lineLoop items recLines (ei + 1) (ri + 1) p
        else lineLoop items recLines ei (ri + 1) false := by
  conv_lhs => rw [lineLoop]
  rw [dif_pos ⟨he, hr⟩]

/-- C5: the line-sequence matcher's cursor discipline.  While both
cursors are in range, a matching comparison advances both cursors and
keeps the accumulated verdict, a failing comparison advances only the
received cursor and clears the verdict (the same expectation stays
pending); when the received lines run out with expectations left the
verdict is a failure regardless of the verdict so far; when the
expectations run out the verdict is exactly the accumulated one, so
leftover received lines alone never fail a run; and an `exact_line`
expectation matches precisely when the received line equals its
`value`. -/
theorem check_output_line_cursor_semantics (items recLines : List PyVal)
    (ei ri : Nat) (p : Bool) :
    (∀ (he : ei < items.length) (hr : ri < recLines.length),
        (lineMatches (items.get ⟨ei, he⟩) (recLines.get ⟨ri, hr⟩) = true →
          lineLoop items recLines ei ri p
            = lineLoop items recLines (ei + 1) (ri + 1) p)
      ∧ (lineMatches (items.get ⟨ei, he⟩) (recLines.get ⟨ri, hr⟩) = false →
          lineLoop items recLines ei ri p
            = lineLoop items recLines ei (ri + 1) false))
    ∧ (recLines.length ≤ ri → ei < items.length →
        lineLoop items recLines ei ri p = false)
    ∧ (items.length ≤ ei → lineLoop items recLines ei ri p = p)
    ∧ (∀ (e r v : PyVal), pyGet e "type" = some (PyVal.pstr "exact_line") →
        pyGet e "value" = some v →
        (lineMatches e r = true ↔ pyEq r v = true)) := by
  refine ⟨?_, ?_, ?_, ?_⟩
  · intro he hr
    constructor
    · intro hmatch
      rw [lineLoop_step items recLines ei ri p he hr, hmatch]
      simp
    · intro hmatch
      rw [lineLoop_step items recLines ei ri p he hr, hmatch]
      simp
  · intro hri hei
    rw [lineLoop]
    have h2 : ¬ ri < recLines.length := by omega
    simp [hei, h2]
  · intro hei
    rw [lineLoop]
    have h1 : ¬ ei < items.length := by omega
    simp [h1]
  · intro e r v hty hv
    rw [lineMatches, hty]
    simp [hv]

/-- C5 witness: one failing `exact_line` comparison advances only the
received cursor, and exhausted received lines with an expectation
still pending yield a failing verdict. -/
theorem check_output_line_cursor_semantics_witness :
    lineLoop [PyVal.pdict [("type", PyVal.pstr "exact_line"),
        ("value", PyVal.pstr "A")]] [PyVal.pstr "B"] 0 0 true
      = lineLoop [PyVal.pdict [("type", PyVal.pstr "exact_line"),
          ("value", PyVal.pstr "A")]] [PyVal.pstr "B"] 0 1 false
    ∧ lineLoop [PyVal.pdict [("type", PyVal.pstr "exact_line"),
        ("value", PyVal.pstr "A")]] [PyVal.pstr "B"] 0 1 false = false := by
  constructor
  · exact ((check_output_line_cursor_semantics
      [PyVal.pdict [("type", PyVal.pstr "exact_line"),
        ("value", PyVal.pstr "A")]] [PyVal.pstr "B"] 0 0 true).1
      (by decide) (by decide)).2
      (by simp [lineMatches, pyGet, pyLookup, pyEq])
  · exact (check_output_line_cursor_semantics
      [PyVal.pdict [("type", PyVal.pstr "exact_line"),
        ("value", PyVal.pstr "A")]] [PyVal.pstr "B"] 0 1 false).2.1
      (by decide) (by decide)

/-- C6: the `ignore_line_count` expectation type is not implemented —
the loop body of output_checker.py only knows `exact_line` (line 192
merely mentions the other types in a comment), so an
`ignore_line_count` item never matches, consumes received lines one at
a time as ordinary failures, and forces a failing verdict even when
enough received lines are present; the claim's boundary example
`[IgnoreCount(3), ExactLine("END")]` against `["x","y"]` does fail
without any out-of-range access, but through the unknown-type path,
not through a shortfall discrepancy. -/
theorem check_output_ignore_count_unimplemented :
    lineMatches (PyVal.pdict [("type", PyVal.pstr "ignore_line_count"),
        ("count", PyVal.pnum 3)]) (PyVal.pstr "x") = false
    ∧ lineLoop [PyVal.pdict [("type", PyVal.pstr "ignore_line_count"),
        ("count", PyVal.pnum 1)]] [PyVal.pstr "x"] 0 0 true = false
    ∧ check_output trivEngine (PyVal.plist [PyVal.pstr "x", PyVal.pstr "y"])
        (LoadOutcome.loaded [("expected_responses", PyVal.plist
          [PyVal.pdict [("type", PyVal.pstr "ignore_line_count"),
            ("count", PyVal.pnum 3)],
           PyVal.pdict [("type", PyVal.pstr "exact_line"),
            ("value", PyVal.pstr "END")]])])
      = Except.ok CheckResult.fail := by
  refine ⟨by simp [lineMatches, pyGet, pyLookup], ?_, ?_⟩
  · simp [lineLoop, lineMatches, pyGet, pyLookup]
  · simp [check_output, pyLookup, pyEq, lineLoop, lineMatches, pyGet]

/-- C9: with no expectation document path at all, or with a loaded
document whose `expected_responses` is absent or `null`,
`check_output` reports the dedicated SKIPPED verdict, whose value for
automation is pass (`True`). -/
theorem check_output_skipped_semantics (E : RegexEngine) (received : PyVal)
    (cfg : List (String × PyVal)) :
    check_output E received LoadOutcome.noPath = Except.ok CheckResult.skipped
    ∧ CheckResult.toBool CheckResult.skipped = true
    ∧ (pyLookup cfg "expected_responses" = none →
        check_output E received (LoadOutcome.loaded cfg)
          = Except.ok CheckResult.skipped)
    ∧ (pyLookup cfg "expected_responses" = some PyVal.pnone →
        check_output E received (LoadOutcome.loaded cfg)
          = Except.ok CheckResult.skipped) := by
  refine ⟨rfl, rfl, ?_, ?_⟩
  · intro h
    rw [check_output, h]
  · intro h
    rw [check_output, h]

/-- C9 witness: a document that sets only `reception_mode` (no
`expected_responses`) is SKIPPED. -/
theorem check_output_skipped_semantics_witness :
    check_output trivEngine (PyVal.plist [])
        (LoadOutcome.loaded [("reception_mode", PyVal.pstr "lines")])
      = Except.ok CheckResult.skipped := by
  exact (check_output_skipped_semantics trivEngine (PyVal.plist [])
    [("reception_mode", PyVal.pstr "lines")]).2.2.1 rfl

/-- C10: the `TYPE:number` validator accepts every boolean received
value with no discrepancy: the check is `isinstance(received, (int,
float))` and Python's `bool` is a subclass of `int`, even though
`boolean` and `number` are distinct entries of the `type_map`. -/
theorem type_number_accepts_booleans (E : RegexEngine) (b : Bool)
    (path : String) :
    compare_json_structures E (PyVal.pbool b) (PyVal.pstr "TYPE:number") path
      = Except.ok [] := by
  simp [compare_json_structures, compareStringValidator, stripPrefixChars,
    validTypeName, isinstanceType]

/-- C7: the implemented half of the numeric-validator family.
`VALUE_GT:<n>` / `VALUE_GTE:<n>` pass exactly when the received value
is numeric (in Python's `isinstance(·, (int, float))` sense) and
satisfies the strict / non-strict comparison; but the analogous
`VALUE_LT`/`VALUE_LTE` validators do not exist in the source (line 73
of output_checker.py is only a comment), so a `VALUE_LT:` string falls
through to the exact-literal branch and a numeric received value is
reported as a plain value mismatch instead of being compared. -/
theorem compare_value_gt_gte_family (E : RegexEngine) (r : PyVal)
    (path s : String) (q : Rat)
    (hq : parsePyFloatChars s.data = some q) :
    (compare_json_structures E r (PyVal.pstr ("VALUE_GT:" ++ s)) path
        = Except.ok [] ↔ ∃ x, asPyNumber r = some x ∧ q < x)
    ∧ (compare_json_structures E r (PyVal.pstr ("VALUE_GTE:" ++ s)) path
        = Except.ok [] ↔ ∃ x, asPyNumber r = some x ∧ q ≤ x)
    ∧ compare_json_structures E (PyVal.pnum 3) (PyVal.pstr "VALUE_LT:5") path
        = Except.ok [Discrepancy.valueMismatch path] := by
  refine ⟨?_, ?_, ?_⟩
  · rw [compare_json_structures]
    simp only [compareStringValidator, String.data_append]
    simp [stripPrefixChars, hq]
    cases har : asPyNumber r with
    | none => simp
    | some x =>
      by_cases hlt : q < x
      · simp [hlt]
      · simp [hlt]
  · rw [compare_json_structures]
    simp only [compareStringValidator, String.data_append]
    simp [stripPrefixChars, hq]
    cases har : asPyNumber r with
    | none => simp
    | some x =>
      by_cases hle : q ≤ x
      · simp [hle]
      · simp [hle]
  · simp [compare_json_structures, compareStringValidator, stripPrefixChars,
      pyEq]

/-- C7 witness: `VALUE_GT:5` accepts the number 7, and `VALUE_LT:5`
treats the number 3 as a failed literal comparison. -/
theorem compare_value_gt_gte_family_witness :
    compare_json_structures trivEngine (PyVal.pnum 7)
        (PyVal.pstr ("VALUE_GT:" ++ "5")) "root" = Except.ok []
    ∧ compare_json_structures trivEngine (PyVal.pnum 3)
        (PyVal.pstr "VALUE_LT:5") "root"
      = Except.ok [Discrepancy.valueMismatch "root"] := by
  have h := compare_value_gt_gte_family trivEngine (PyVal.pnum 7) "root" "5" 5
    (by decide)
  exact ⟨h.1.mpr ⟨7, rfl, by norm_num⟩, h.2.2⟩

/-- C8 counterexample: contrary to the claim, a `REGEX:` validator
whose pattern the regex engine rejects does not yield a discrepancy —
applied to a string received value, `re.search` raises and the error
escapes `compare_json_structures` (modelled by the `Except.error`
result, which is not `Except.ok ds` for any discrepancy list). -/
theorem compare_regex_error_counterexample :
    compare_json_structures rejectAllEngine (PyVal.pstr "x")
        (PyVal.pstr "REGEX:(") "root"
      = Except.error (PyError.reError "(") := by
  simp [compare_json_structures, compareStringValidator, stripPrefixChars,
    rejectAllEngine]

/-- C8 (amended): a malformed `TYPE:` validator name is reported as a
discrepancy, but a `REGEX:` validator with a pattern the engine cannot
compile, checked against a string received value, propagates the
`re.error` out of `compare_json_structures` instead of producing a
discrepancy. -/
theorem compare_validator_error_handling (E : RegexEngine)
    (pat s path ty : String)
    (hc : E.compile pat = none) (hty : validTypeName ty.data = false) :
    compare_json_structures E (PyVal.pstr s) (PyVal.pstr ("REGEX:" ++ pat))
        path = Except.error (PyError.reError pat)
    ∧ (∀ v : PyVal,
        compare_json_structures E v (PyVal.pstr ("TYPE:" ++ ty)) path
          = Except.ok [Discrepancy.invalidExpectedType path ty]) := by
  constructor
  · rw [compare_json_structures]
    simp only [compareStringValidator, String.data_append]
    simp [stripPrefixChars, string_mk_data, hc]
  · intro v
    rw [compare_json_structures]
    simp only [compareStringValidator, String.data_append]
    simp [stripPrefixChars, string_mk_data, hty]

/-- C8 amended-theorem witness: the engine that compiles no pattern
raises on `REGEX:[` against a string, while an unknown type name is a
discrepancy. -/
theorem compare_validator_error_handling_witness :
    compare_json_structures rejectAllEngine (PyVal.pstr "y")
        (PyVal.pstr ("REGEX:" ++ "[")) "root"
      = Except.error (PyError.reError "[")
    ∧ compare_json_structures rejectAllEngine PyVal.pnone
        (PyVal.pstr ("TYPE:" ++ "badtype")) "root"
      = Except.ok [Discrepancy.invalidExpectedType "root" "badtype"] := by
  have h := compare_validator_error_handling rejectAllEngine "[" "y" "root"
    "badtype" rfl (by decide)
  exact ⟨h.1, h.2 PyVal.pnone⟩
